import Mathlib

/-!
Shallow embedding of the playout core of `app.js` (OBS Playout Web App):
the `currentPlayingMedia` record, the engine-facing helper functions
(`ensureVideoSource` / `ensureImageSource`, `hideSource`, `showSource`,
`fitToScreen`), the three playout HTTP handlers (`/play/video`,
`/show/image`, `/stop/all`), the periodic `broadcastVideoProgress` task and
the socket join / `requestStatus` replay.

Remote engine calls (`obs.call`) can fail independently of local state, so
each call site that the source wraps in its own `try`/`catch` (or lets
propagate to the handler-level `catch`) is driven by an explicit fault flag;
engine-visible effects and socket broadcasts are collected in an `Event`
trace in program order.  Strings are compared through their character lists
so that every definition evaluates on concrete inputs.
-/

namespace ObsPlayout

/-- Model of JS `String.prototype.startsWith` (used at
`filePath.startsWith(CONFIG.MEDIA_DIR)`): the second string is a prefix of
the first, compared character by character. -/
def startsWithFn (s pre : String) : Bool :=
  pre.data.isPrefixOf s.data

/-- Accumulator loop for `basename`: walk the characters, restarting the
accumulated (reversed) component at every `/`. -/
def basenameAux : List Char → List Char → List Char
  | cur, [] => cur.reverse
  | cur, c :: rest => if c = '/' then basenameAux [] rest else basenameAux (c :: cur) rest

/-- Model of Node `path.basename` for the plain `/`-separated absolute file
paths this app passes to it: the component after the last separator. -/
def basename (p : String) : String :=
  String.mk (basenameAux [] p.data)

/-- Tag stored in `currentPlayingMedia.type` (`'video'` or `'image'`). -/
inductive MediaType
  | video
  | image
  deriving DecidableEq, Repr

/-- The `currentPlayingMedia` record (app.js lines 85-91).  Every field is
nullable (`Option`); durations are in whole seconds.  `durationFormatted`
is only put on the record by the video handler and is absent (`none`)
everywhere else. -/
structure Media where
  type : Option MediaType
  filePath : Option String
  filename : Option String
  startTime : Option Nat
  duration : Option Nat
  durationFormatted : Option String
  deriving DecidableEq, Repr

/-- The initial / cleared `currentPlayingMedia` value: every field null. -/
def emptyMedia : Media :=
  { type := none, filePath := none, filename := none, startTime := none,
    duration := none, durationFormatted := none }

/-- JS `n.toString().padStart(2, '0')` for the two-digit clock fields. -/
def pad2 (n : Nat) : String :=
  if n < 10 then "0" ++ toString n else toString n

/-- Model of `formatDuration` (app.js lines 317-329) over whole seconds.  The JS
guard `!seconds` is true for `null` and for `0`, both returning `null`. -/
def formatDuration : Option Nat → Option String
  | none => none
  | some s =>
    if s = 0 then none
    else
      let hours := s / 3600
      let minutes := (s % 3600) / 60
      let secs := s % 60
      if hours > 0 then
        some (toString hours ++ ":" ++ pad2 minutes ++ ":" ++ pad2 secs)
      else
        some (toString minutes ++ ":" ++ pad2 secs)

/-- Engine-side state of one managed input (the video player or the image
player): `count` is how many engine inputs exist under its configured name
(tracking duplicate creation), `attached` whether a scene item for it is a
member of the target scene, `visible` the scene item's enabled flag, and
`file` its configured media file setting. -/
structure SourceState where
  count : Nat
  attached : Bool
  visible : Bool
  file : Option String
  deriving DecidableEq, Repr

/-- The payload of a `videoProgress` broadcast (app.js lines 160-177). -/
structure ProgressData where
  ok : Bool
  mediaState : String
  mediaDuration : Nat
  mediaCursor : Nat
  playing : Bool
  deriving DecidableEq, Repr

/-- Engine reply to `GetMediaInputStatus`; duration and cursor may be
absent (JS `undefined`/`null`, defaulted through `|| 0`). -/
structure EngineMediaStatus where
  mediaState : String
  mediaDuration : Option Nat
  mediaCursor : Option Nat
  deriving DecidableEq, Repr

/-- One observable action of a handler: a successful engine mutation or a
socket broadcast, recorded in program order. -/
inductive Event
  | engineSetScene (sceneName : String)
  | engineCreateInput (inputName : String) (inputKind : String)
  | engineCreateSceneItem (sourceName : String)
  | engineSetEnabled (sourceName : String) (enabled : Bool)
  | engineMediaAction (inputName : String) (action : String)
  | engineSetFile (inputName : String) (file : String)
  | engineSetTransform (sourceName : String)
  | emitOBSStatus (connected : Bool)
  | emitCurrentPlaying (m : Media)
  | emitVideoProgress (p : ProgressData)
  deriving DecidableEq, Repr

/-- Process-wide mutable state of the server: the connection flag
`obsConnected`, the `currentPlayingMedia` record, and the engine-side state
of the two managed sources. -/
structure AppState where
  obsConnected : Bool
  currentPlayingMedia : Media
  videoSrc : SourceState
  imageSrc : SourceState
  deriving DecidableEq, Repr

/-- The `CONFIG` fields a playout request reads, plus the result of the
`getVideoDuration` probe as a pure lookup (its internal ffprobe/cache
failures surface as `none`, never as an exception). -/
structure Env where
  mediaDir : String
  videoInput : String
  imageInput : String
  targetScene : String
  probeDuration : String → Option Nat

/-- Which remote calls of a handler fail by raising.  Every `obs.call` can
fail independently of local state; each flag drives one call site that the
source either wraps in its own `try`/`catch` or lets propagate to the
handler-level `catch`.  `{}` (all `false`) is the fault-free engine. -/
structure Faults where
  sceneSwitchThrows : Bool := false
  ensureThrows : Bool := false
  hideVideoThrows : Bool := false
  hideImageThrows : Bool := false
  showVideoThrows : Bool := false
  showImageThrows : Bool := false
  stopActionThrows : Bool := false
  setSettingsThrows : Bool := false
  restartThrows : Bool := false
  fitThrows : Bool := false
  mediaStatusThrows : Bool := false
  deriving DecidableEq, Repr

/-- All remote calls succeed. -/
def noFaults : Faults := {}

/-- Model of `hideSource` (app.js lines 585-608): resolve the scene, look the
source's scene item up, and disable it when found; a missing item is only
logged, and every error is caught inside the function, never propagated. -/
def hideSource (throws : Bool) (name : String) (src : SourceState) :
    SourceState × List Event :=
  if throws then (src, [])
  else if src.attached then
    ({ src with visible := false }, [Event.engineSetEnabled name false])
  else (src, [])

/-- Model of `showSource` (app.js lines 610-633): same shape as `hideSource`, with
the enabled flag set to true. -/
def showSource (throws : Bool) (name : String) (src : SourceState) :
    SourceState × List Event :=
  if throws then (src, [])
  else if src.attached then
    ({ src with visible := true }, [Event.engineSetEnabled name true])
  else (src, [])

/-- Success behaviour shared by `ensureVideoSource` and `ensureImageSource`
(app.js lines 421-505), which differ only in the created input's kind: if
an input with the configured name exists (`GetInputSettings` succeeds),
attach it to the target scene when it is not already a member; otherwise
create it directly in the target scene with its scene item enabled. -/
def ensureSourceOk (name inputKind : String) (src : SourceState) :
    SourceState × List Event :=
  if src.count ≥ 1 then
    if src.attached then (src, [])
    else ({ src with attached := true, visible := true },
          [Event.engineCreateSceneItem name])
  else
    ({ src with count := src.count + 1, attached := true, visible := true },
     [Event.engineCreateInput name inputKind])

/-- Models `ensureVideoSource`/`ensureImageSource` with the remote-failure case:
a `CreateInput` failure (or a lookup failure falling through to a doomed
create) propagates to the calling handler (`none`). -/
def ensureSourceCall (throws : Bool) (name inputKind : String) (src : SourceState) :
    Option (SourceState × List Event) :=
  if throws then none else some (ensureSourceOk name inputKind src)

/-- Model of `ensureVideoSource` (app.js lines 421-462): created as `ffmpeg_source`. -/
def ensureVideoSource (throws : Bool) (name : String) (src : SourceState) :
    Option (SourceState × List Event) :=
  ensureSourceCall throws name "ffmpeg_source" src

/-- Model of `ensureImageSource` (app.js lines 464-505): created as `image_source`. -/
def ensureImageSource (throws : Bool) (name : String) (src : SourceState) :
    Option (SourceState × List Event) :=
  ensureSourceCall throws name "image_source" src

/-- Model of `fitToScreen` (app.js lines 533-583): best-effort transform reset,
silently skipped when the scene item is not found; all errors caught. -/
def fitToScreen (throws : Bool) (name : String) (src : SourceState) : List Event :=
  if throws then []
  else if src.attached then [Event.engineSetTransform name]
  else []

/-- The scene-switch preamble of the play/show handlers (app.js lines
646-655): attempted when the target scene is truthy and not
`CURRENT_SCENE`; a failure is logged and swallowed. -/
def sceneSwitch (throws : Bool) (targetScene : String) : List Event :=
  if targetScene ≠ "" ∧ targetScene ≠ "CURRENT_SCENE" then
    if throws then [] else [Event.engineSetScene targetScene]
  else []

/-- Outcome of a playout HTTP request, as the source reports it:
`ok` is `res.json({ok:true})`, `invalidPath` the 400 `"invalid path"`
response, `notConnected` the 503 `"OBS not connected"` response, and
`serverError` the handler-level `catch` answering 500 with the error. -/
inductive HttpResult
  | ok
  | invalidPath
  | notConnected
  | serverError
  deriving DecidableEq, Repr

/-- The `currentPlayingMedia` record the video handler commits on success
(app.js lines 692-699). -/
def videoOnAir (env : Env) (now : Nat) (p : String) : Media :=
  { type := some MediaType.video, filePath := some p,
    filename := some (basename p), startTime := some now,
    duration := env.probeDuration p,
    durationFormatted := formatDuration (env.probeDuration p) }

/-- The `currentPlayingMedia` record the image handler commits on success
(app.js lines 750-756): images have no duration. -/
def imageOnAir (now : Nat) (p : String) : Media :=
  { type := some MediaType.image, filePath := some p,
    filename := some (basename p), startTime := some now,
    duration := none, durationFormatted := none }

/-- The `POST /play/video` handler (app.js lines 636-710).  Returns the new
process state, the trace of engine effects and broadcasts, and the HTTP
outcome.  Validation (media-root check) precedes the connectivity check;
the scene switch, the stop-before-restart action, `hideSource`,
`showSource` and `fitToScreen` swallow their own failures; the failures of
`ensureVideoSource`, `SetInputSettings` and the restart action propagate to
the handler's `catch`, leaving `currentPlayingMedia` unassigned. -/
def playVideo (env : Env) (now : Nat) (f : Faults) (st : AppState) (filePath : String) :
    AppState × List Event × HttpResult :=
  if ¬ startsWithFn filePath env.mediaDir then (st, [], HttpResult.invalidPath)
  else if ¬ st.obsConnected then (st, [], HttpResult.notConnected)
  else
    let ev0 := sceneSwitch f.sceneSwitchThrows env.targetScene
    match ensureVideoSource f.ensureThrows env.videoInput st.videoSrc with
    | none => (st, ev0, HttpResult.serverError)
    | some (vs, ev1) =>
      let hi := hideSource f.hideImageThrows env.imageInput st.imageSrc
      let sv := showSource f.showVideoThrows env.videoInput vs
      let ev4 := if f.stopActionThrows then []
        else [Event.engineMediaAction env.videoInput "OBS_WEBSOCKET_MEDIA_INPUT_ACTION_STOP"]
      let st1 : AppState := { st with videoSrc := sv.1, imageSrc := hi.1 }
      if f.setSettingsThrows then
        (st1, ev0 ++ ev1 ++ hi.2 ++ sv.2 ++ ev4, HttpResult.serverError)
      else
        let vs2 : SourceState := { sv.1 with file := some filePath }
        let st2 : AppState := { st1 with videoSrc := vs2 }
        let ev5 := [Event.engineSetFile env.videoInput filePath]
        if f.restartThrows then
          (st2, ev0 ++ ev1 ++ hi.2 ++ sv.2 ++ ev4 ++ ev5, HttpResult.serverError)
        else
          let ev6 := [Event.engineMediaAction env.videoInput
            "OBS_WEBSOCKET_MEDIA_INPUT_ACTION_RESTART"]
          let ev7 := fitToScreen f.fitThrows env.videoInput vs2
          let m := videoOnAir env now filePath
          ({ st2 with currentPlayingMedia := m },
           ev0 ++ ev1 ++ hi.2 ++ sv.2 ++ ev4 ++ ev5 ++ ev6 ++ ev7 ++
             [Event.emitCurrentPlaying m],
           HttpResult.ok)

/-- The `POST /show/image` handler (app.js lines 712-766): symmetric to the
video handler without the stop/restart media actions; hides the video
source, shows the image source, sets the image file, commits the image
record (duration null) and broadcasts it. -/
def showImage (env : Env) (now : Nat) (f : Faults) (st : AppState) (filePath : String) :
    AppState × List Event × HttpResult :=
  if ¬ startsWithFn filePath env.mediaDir then (st, [], HttpResult.invalidPath)
  else if ¬ st.obsConnected then (st, [], HttpResult.notConnected)
  else
    let ev0 := sceneSwitch f.sceneSwitchThrows env.targetScene
    match ensureImageSource f.ensureThrows env.imageInput st.imageSrc with
    | none => (st, ev0, HttpResult.serverError)
    | some (is, ev1) =>
      let hv := hideSource f.hideVideoThrows env.videoInput st.videoSrc
      let si := showSource f.showImageThrows env.imageInput is
      let st1 : AppState := { st with videoSrc := hv.1, imageSrc := si.1 }
      if f.setSettingsThrows then
        (st1, ev0 ++ ev1 ++ hv.2 ++ si.2, HttpResult.serverError)
      else
        let is2 : SourceState := { si.1 with file := some filePath }
        let st2 : AppState := { st1 with imageSrc := is2 }
        let ev4 := [Event.engineSetFile env.imageInput filePath]
        let ev5 := fitToScreen f.fitThrows env.imageInput is2
        let m := imageOnAir now filePath
        ({ st2 with currentPlayingMedia := m },
         ev0 ++ ev1 ++ hv.2 ++ si.2 ++ ev4 ++ ev5 ++ [Event.emitCurrentPlaying m],
         HttpResult.ok)

/-- The `POST /stop/all` handler (app.js lines 768-792): rejects when the
engine is disconnected; otherwise best-effort hides both managed sources
(each hide swallows its own errors), unconditionally clears
`currentPlayingMedia`, broadcasts the cleared record, and answers ok. -/
def stopAll (env : Env) (f : Faults) (st : AppState) :
    AppState × List Event × HttpResult :=
  if ¬ st.obsConnected then (st, [], HttpResult.notConnected)
  else
    let hv := hideSource f.hideVideoThrows env.videoInput st.videoSrc
    let hi := hideSource f.hideImageThrows env.imageInput st.imageSrc
    ({ st with videoSrc := hv.1, imageSrc := hi.1, currentPlayingMedia := emptyMedia },
     hv.2 ++ hi.2 ++ [Event.emitCurrentPlaying emptyMedia],
     HttpResult.ok)

/-- The synthetic "no media" progress payload (app.js lines 171-177). -/
def syntheticNoMedia : ProgressData :=
  { ok := true, mediaState := "OBS_MEDIA_STATE_NONE", mediaDuration := 0,
    mediaCursor := 0, playing := false }

/-- The live progress payload built from the engine's reply
(app.js lines 160-166). -/
def livePayload (status : EngineMediaStatus) : ProgressData :=
  { ok := true, mediaState := status.mediaState,
    mediaDuration := status.mediaDuration.getD 0,
    mediaCursor := status.mediaCursor.getD 0,
    playing := status.mediaState == "OBS_MEDIA_STATE_PLAYING" }

/-- One tick of `broadcastVideoProgress` (app.js lines 150-179), run every
second by `startProgressBroadcasting`: it returns (emitting nothing) unless
the engine is connected and a video is on air; then it emits the engine's
media status, degrading to the synthetic "no media" payload when the
status query fails. -/
def broadcastVideoProgress (f : Faults) (status : EngineMediaStatus) (st : AppState) :
    List Event :=
  if ¬ st.obsConnected ∨ st.currentPlayingMedia.type ≠ some MediaType.video then []
  else if f.mediaStatusThrows then [Event.emitVideoProgress syntheticNoMedia]
  else [Event.emitVideoProgress (livePayload status)]

/-- The socket connection handler's immediate pushes to the new client
(app.js lines 124-125): current connection status, then the current
`currentPlayingMedia`. -/
def connectionReplay (st : AppState) : List Event :=
  [Event.emitOBSStatus st.obsConnected,
   Event.emitCurrentPlaying st.currentPlayingMedia]

/-- The `requestStatus` socket handler's pushes (app.js lines 133-136). -/
def requestStatusReply (st : AppState) : List Event :=
  [Event.emitOBSStatus st.obsConnected,
   Event.emitCurrentPlaying st.currentPlayingMedia]

/-- A reachable process state: the process starts disconnected with the
all-null record (the engine-side source states are external and start
arbitrary), and evolves by connection changes and the three playout
handlers, under any configuration, clock, request path and engine faults. -/
inductive Reachable : AppState → Prop
  | init (vs is : SourceState) :
      Reachable { obsConnected := false, currentPlayingMedia := emptyMedia,
                  videoSrc := vs, imageSrc := is }
  | connectStep (st : AppState) : Reachable st →
      Reachable { st with obsConnected := true }
  | disconnectStep (st : AppState) : Reachable st →
      Reachable { st with obsConnected := false }
  | playStep (env : Env) (now : Nat) (f : Faults) (p : String) (st : AppState) :
      Reachable st → Reachable (playVideo env now f st p).1
  | showStep (env : Env) (now : Nat) (f : Faults) (p : String) (st : AppState) :
      Reachable st → Reachable (showImage env now f st p).1
  | stopStep (env : Env) (f : Faults) (st : AppState) :
      Reachable st → Reachable (stopAll env f st).1

/-- The none-state invariant: whenever `type` is null, the other data
fields are null too. -/
def noneIsBlank (m : Media) : Prop :=
  m.type = none → m.filePath = none ∧ m.filename = none ∧
    m.startTime = none ∧ m.duration = none

/-! ### Concrete fixtures for witnesses and counterexamples -/

/-- A concrete configuration: the default `CONFIG` values, with the
duration probe knowing one clip. -/
def testEnv : Env :=
  { mediaDir := "/Users/team/OBS-Media", videoInput := "PlayerVideo",
    imageInput := "PlayerImage", targetScene := "Scene",
    probeDuration := fun p =>
      if p = "/Users/team/OBS-Media/lib/clip1.mp4" then some 42 else none }

/-- A managed source the engine has never seen. -/
def srcFree : SourceState :=
  { count := 0, attached := false, visible := false, file := none }

/-- A managed source that exists, attached and visible. -/
def srcLive : SourceState :=
  { count := 1, attached := true, visible := true, file := none }

/-- A video path inside the media root. -/
def clipPath : String := "/Users/team/OBS-Media/lib/clip1.mp4"

/-- An image path inside the media root. -/
def picPath : String := "/Users/team/OBS-Media/lib/pic.png"

/-- Connected, nothing on air, fresh engine. -/
def stIdleConn : AppState :=
  { obsConnected := true, currentPlayingMedia := emptyMedia,
    videoSrc := srcFree, imageSrc := srcFree }

/-- Disconnected, nothing on air, fresh engine. -/
def stIdleDisc : AppState :=
  { obsConnected := false, currentPlayingMedia := emptyMedia,
    videoSrc := srcFree, imageSrc := srcFree }

/-- A record with a video on air. -/
def onAirVideoMedia : Media :=
  { type := some MediaType.video, filePath := some clipPath,
    filename := some "clip1.mp4", startTime := some 100,
    duration := some 42, durationFormatted := some "0:42" }

/-- Disconnected while a video record is still on air. -/
def stOnAirDisc : AppState :=
  { obsConnected := false, currentPlayingMedia := onAirVideoMedia,
    videoSrc := srcLive, imageSrc := srcLive }

/-- Connected with a video record on air. -/
def stOnAirConn : AppState :=
  { obsConnected := true, currentPlayingMedia := onAirVideoMedia,
    videoSrc := srcLive, imageSrc := srcLive }

/-! ### Helper lemmas -/

theorem ensureOk_attached (n k : String) (s : SourceState) :
    (ensureSourceOk n k s).1.attached = true := by
  unfold ensureSourceOk; split_ifs <;> simp_all

theorem ensureOk_count (n k : String) (s : SourceState) :
    (ensureSourceOk n k s).1.count = max 1 s.count := by
  unfold ensureSourceOk; split_ifs with h1 h2 <;> simp_all

theorem ensureOk_noop (n k : String) (t : SourceState)
    (h1 : 1 ≤ t.count) (h2 : t.attached = true) :
    ensureSourceOk n k t = (t, []) := by
  unfold ensureSourceOk; simp [h1, h2]

theorem hideSource_no_emit (b : Bool) (n : String) (s : SourceState) (m : Media) :
    Event.emitCurrentPlaying m ∉ (hideSource b n s).2 := by
  unfold hideSource; split_ifs <;> simp

theorem showSource_no_emit (b : Bool) (n : String) (s : SourceState) (m : Media) :
    Event.emitCurrentPlaying m ∉ (showSource b n s).2 := by
  unfold showSource; split_ifs <;> simp

theorem ensureOk_no_emit (n k : String) (s : SourceState) (m : Media) :
    Event.emitCurrentPlaying m ∉ (ensureSourceOk n k s).2 := by
  unfold ensureSourceOk; split_ifs <;> simp

theorem sceneSwitch_no_emit (b : Bool) (t : String) (m : Media) :
    Event.emitCurrentPlaying m ∉ sceneSwitch b t := by
  unfold sceneSwitch; split_ifs <;> simp

/-! ### Claims -/

/-- C3: for either managed source kind, the ensure operation on a reachable
engine (absent / present-unattached / present-attached) completes without
error, always establishes "source exists and is attached to the target
scene", never creates a duplicate (the input count only ever rises from 0
to 1), and a second call is a no-op, so the operation is idempotent. -/
theorem ensureSource_converges (name inputKind : String) (src : SourceState) :
    ensureSourceCall false name inputKind src =
      some (ensureSourceOk name inputKind src) ∧
    1 ≤ (ensureSourceOk name inputKind src).1.count ∧
    (ensureSourceOk name inputKind src).1.attached = true ∧
    (ensureSourceOk name inputKind src).1.count = max 1 src.count ∧
    ensureSourceOk name inputKind (ensureSourceOk name inputKind src).1 =
      ((ensureSourceOk name inputKind src).1, []) := by
  have ha := ensureOk_attached name inputKind src
  have hc := ensureOk_count name inputKind src
  have h1 : 1 ≤ (ensureSourceOk name inputKind src).1.count := by omega
  exact ⟨rfl, h1, ha, hc, ensureOk_noop name inputKind _ h1 ha⟩

theorem playVideo_valid_result (env : Env) (now : Nat) (f : Faults)
    (st : AppState) (p : String) (hp : startsWithFn p env.mediaDir = true) :
    (playVideo env now f st p).2.2 ≠ HttpResult.invalidPath := by
  unfold playVideo ensureVideoSource ensureSourceCall
  by_cases hc : st.obsConnected <;>
    by_cases he : f.ensureThrows <;>
      by_cases hs : f.setSettingsThrows <;>
        by_cases hr : f.restartThrows <;>
          simp [hp, hc, he, hs, hr]

theorem showImage_valid_result (env : Env) (now : Nat) (f : Faults)
    (st : AppState) (p : String) (hp : startsWithFn p env.mediaDir = true) :
    (showImage env now f st p).2.2 ≠ HttpResult.invalidPath := by
  unfold showImage ensureImageSource ensureSourceCall
  by_cases hc : st.obsConnected <;>
    by_cases he : f.ensureThrows <;>
      by_cases hs : f.setSettingsThrows <;>
        simp [hp, hc, he, hs]

theorem playVideo_invalid (env : Env) (now : Nat) (f : Faults)
    (st : AppState) (p : String) (hp : startsWithFn p env.mediaDir = false) :
    playVideo env now f st p = (st, [], HttpResult.invalidPath) := by
  unfold playVideo; simp [hp]

theorem showImage_invalid (env : Env) (now : Nat) (f : Faults)
    (st : AppState) (p : String) (hp : startsWithFn p env.mediaDir = false) :
    showImage env now f st p = (st, [], HttpResult.invalidPath) := by
  unfold showImage; simp [hp]

/-- C4: `playVideo` and `showImage` answer the invalid-path error exactly
when the request path's string form does not begin with the configured
media-root string (a plain prefix check), and such requests leave the whole
process state (in particular `currentPlayingMedia`) unchanged. -/
theorem pathValidationPolicy (env : Env) (now : Nat) (f : Faults)
    (st : AppState) (p : String) :
    ((playVideo env now f st p).2.2 = HttpResult.invalidPath ↔
       startsWithFn p env.mediaDir = false) ∧
    ((showImage env now f st p).2.2 = HttpResult.invalidPath ↔
       startsWithFn p env.mediaDir = false) ∧
    (startsWithFn p env.mediaDir = false →
       (playVideo env now f st p).1 = st ∧ (showImage env now f st p).1 = st) := by
  refine ⟨⟨fun h => ?_, fun h => ?_⟩, ⟨fun h => ?_, fun h => ?_⟩, fun h => ?_⟩
  · by_contra hF
    exact playVideo_valid_result env now f st p (by simpa using hF) h
  · rw [playVideo_invalid env now f st p h]
  · by_contra hF
    exact showImage_valid_result env now f st p (by simpa using hF) h
  · rw [showImage_invalid env now f st p h]
  · rw [playVideo_invalid env now f st p h, showImage_invalid env now f st p h]
    exact ⟨rfl, rfl⟩

/-- C4 witness: the out-of-root path is rejected with the invalid-path
error and leaves the state unchanged, while the in-root clip path is not
rejected as invalid. -/
theorem pathValidationPolicy_witness :
    (playVideo testEnv 100 noFaults stIdleConn "/elsewhere/x.mp4").2.2 =
      HttpResult.invalidPath ∧
    (showImage testEnv 100 noFaults stIdleConn "/elsewhere/x.mp4").2.2 =
      HttpResult.invalidPath ∧
    (playVideo testEnv 100 noFaults stIdleConn "/elsewhere/x.mp4").1 = stIdleConn ∧
    (playVideo testEnv 100 noFaults stIdleConn clipPath).2.2 ≠
      HttpResult.invalidPath := by
  have h := pathValidationPolicy testEnv 100 noFaults stIdleConn "/elsewhere/x.mp4"
  have h2 := pathValidationPolicy testEnv 100 noFaults stIdleConn clipPath
  refine ⟨h.1.mpr (by decide), h.2.1.mpr (by decide),
    (h.2.2 (by decide)).1, fun heq => ?_⟩
  have := h2.1.mp heq
  simp [show startsWithFn clipPath testEnv.mediaDir = true from by decide] at this

/-- C7: with the engine disconnected, `playVideo` on any in-root path
returns the not-connected error, performs no engine call (empty trace) and
leaves the state — in particular `currentPlayingMedia` — unchanged. -/
theorem playVideo_disconnected (env : Env) (now : Nat) (f : Faults)
    (st : AppState) (p : String) (hp : startsWithFn p env.mediaDir = true)
    (hc : st.obsConnected = false) :
    playVideo env now f st p = (st, [], HttpResult.notConnected) := by
  unfold playVideo; simp [hp, hc]

/-- C7 witness: the disconnected idle state rejects the in-root clip path
with the not-connected error and stays `{kind: none}`. -/
theorem playVideo_disconnected_witness :
    playVideo testEnv 100 noFaults stIdleDisc clipPath =
      (stIdleDisc, [], HttpResult.notConnected) ∧
    stIdleDisc.currentPlayingMedia = emptyMedia :=
  ⟨playVideo_disconnected testEnv 100 noFaults stIdleDisc clipPath (by decide) rfl, rfl⟩

/-- C9: the path check runs before the connectivity check — an out-of-root
path (e.g. a missing `filePath` coerced to the empty string) is answered
with the invalid-path error even when the engine is disconnected, with no
engine call; the not-connected error is never produced for such a path. -/
theorem invalidPath_precedence (env : Env) (now : Nat) (f : Faults)
    (st : AppState) (p : String) (hp : startsWithFn p env.mediaDir = false) :
    playVideo env now f st p = (st, [], HttpResult.invalidPath) ∧
    showImage env now f st p = (st, [], HttpResult.invalidPath) ∧
    (playVideo env now f st p).2.2 ≠ HttpResult.notConnected ∧
    (showImage env now f st p).2.2 ≠ HttpResult.notConnected := by
  have h1 := playVideo_invalid env now f st p hp
  have h2 := showImage_invalid env now f st p hp
  refine ⟨h1, h2, ?_, ?_⟩ <;> simp [h1, h2]

/-- C9 witness: on the disconnected idle state, the empty (missing,
coerced) path is answered with the invalid-path error, not the
not-connected error. -/
theorem invalidPath_precedence_witness :
    playVideo testEnv 100 noFaults stIdleDisc "" =
      (stIdleDisc, [], HttpResult.invalidPath) ∧
    showImage testEnv 100 noFaults stIdleDisc "" =
      (stIdleDisc, [], HttpResult.invalidPath) ∧
    (playVideo testEnv 100 noFaults stIdleDisc "").2.2 ≠ HttpResult.notConnected ∧
    (showImage testEnv 100 noFaults stIdleDisc "").2.2 ≠ HttpResult.notConnected :=
  invalidPath_precedence testEnv 100 noFaults stIdleDisc "" (by decide)

/-- The engine's idle media-status reply. -/
def idleStatus : EngineMediaStatus :=
  { mediaState := "OBS_MEDIA_STATE_NONE", mediaDuration := none, mediaCursor := none }

/-- Both best-effort hide calls fail remotely. -/
def hideFaults : Faults := { hideVideoThrows := true, hideImageThrows := true }

/-- The ensure-source step fails remotely (its failure propagates). -/
def ensureFault : Faults := { ensureThrows := true }

/-- C1 counterexample: with the engine disconnected and a video record
still on air, `stopAll` answers the not-connected failure (not success),
does not reset the record to the none state, and broadcasts nothing. -/
theorem stopAll_disconnected_counterexample :
    (stopAll testEnv noFaults stOnAirDisc).2.2 = HttpResult.notConnected ∧
    (stopAll testEnv noFaults stOnAirDisc).2.2 ≠ HttpResult.ok ∧
    (stopAll testEnv noFaults stOnAirDisc).1.currentPlayingMedia = onAirVideoMedia ∧
    onAirVideoMedia.type = some MediaType.video ∧
    (stopAll testEnv noFaults stOnAirDisc).2.1 = [] :=
  ⟨rfl, by decide, rfl, rfl, rfl⟩

/-- C1 (amended): when the engine is connected, `stopAll` resets the
record to the none state, broadcasts that record to all observers and
reports success regardless of whether the underlying hide calls succeed;
when the engine is disconnected the handler instead reports the
not-connected failure and leaves the record untouched. -/
theorem stopAll_behaviour (env : Env) (f : Faults) (st : AppState) :
    (st.obsConnected = true →
      (stopAll env f st).1.currentPlayingMedia = emptyMedia ∧
      Event.emitCurrentPlaying emptyMedia ∈ (stopAll env f st).2.1 ∧
      (stopAll env f st).2.2 = HttpResult.ok) ∧
    (st.obsConnected = false →
      stopAll env f st = (st, [], HttpResult.notConnected)) := by
  constructor
  · intro hc
    unfold stopAll
    simp [hc]
  · intro hc
    unfold stopAll
    simp [hc]

/-- C1 witness: with both hide calls failing on a connected on-air state,
`stopAll` still clears the record, broadcasts it and reports success. -/
theorem stopAll_behaviour_witness :
    (stopAll testEnv hideFaults stOnAirConn).1.currentPlayingMedia = emptyMedia ∧
    Event.emitCurrentPlaying emptyMedia ∈ (stopAll testEnv hideFaults stOnAirConn).2.1 ∧
    (stopAll testEnv hideFaults stOnAirConn).2.2 = HttpResult.ok :=
  (stopAll_behaviour testEnv hideFaults stOnAirConn).1 rfl

/-- C2 counterexample: with the engine connected but nothing on air, the
progress tick emits nothing at all — not the synthetic "no media" sample
the claim requires. -/
theorem progress_counterexample :
    broadcastVideoProgress noFaults idleStatus stIdleConn = [] ∧
    broadcastVideoProgress noFaults idleStatus stIdleConn ≠
      [Event.emitVideoProgress syntheticNoMedia] := by
  refine ⟨rfl, ?_⟩
  intro h
  rw [show broadcastVideoProgress noFaults idleStatus stIdleConn = [] from rfl] at h
  simp at h

/-- C2 (amended): a progress tick pushes exactly one sample when the
record's kind is video and the engine is connected — the engine's status,
degrading to the synthetic "no media" sample when the status query fails —
and pushes nothing in every other case; in particular, after `stopAll` has
run (whatever its outcome) the tick pushes nothing. -/
theorem broadcastVideoProgress_spec (f : Faults) (status : EngineMediaStatus)
    (st : AppState) :
    broadcastVideoProgress f status st =
      (if st.obsConnected = true ∧
          st.currentPlayingMedia.type = some MediaType.video then
        [Event.emitVideoProgress
          (if f.mediaStatusThrows then syntheticNoMedia else livePayload status)]
       else []) ∧
    (∀ env f2, broadcastVideoProgress f status (stopAll env f2 st).1 = []) := by
  constructor
  · unfold broadcastVideoProgress
    by_cases hc : st.obsConnected <;>
      by_cases ht : st.currentPlayingMedia.type = some MediaType.video <;>
        by_cases hm : f.mediaStatusThrows <;> simp [hc, ht, hm]
  · intro env f2
    unfold stopAll
    by_cases hc : st.obsConnected
    · simp [hc, broadcastVideoProgress, emptyMedia]
    · simp [hc, broadcastVideoProgress]

theorem playVideo_aborts (env : Env) (now : Nat) (f : Faults) (st : AppState)
    (p : String) (hp : startsWithFn p env.mediaDir = true)
    (hc : st.obsConnected = true)
    (hf : f.ensureThrows = true ∨ f.setSettingsThrows = true ∨
          f.restartThrows = true) :
    (playVideo env now f st p).2.2 = HttpResult.serverError ∧
    (playVideo env now f st p).1.currentPlayingMedia = st.currentPlayingMedia ∧
    ∀ m, Event.emitCurrentPlaying m ∉ (playVideo env now f st p).2.1 := by
  unfold playVideo ensureVideoSource ensureSourceCall
  by_cases he : f.ensureThrows <;>
    by_cases hs : f.setSettingsThrows <;>
      by_cases hr : f.restartThrows <;>
        simp_all [List.mem_append, sceneSwitch_no_emit, ensureOk_no_emit,
          hideSource_no_emit, showSource_no_emit]

theorem showImage_aborts (env : Env) (now : Nat) (f : Faults) (st : AppState)
    (p : String) (hp : startsWithFn p env.mediaDir = true)
    (hc : st.obsConnected = true)
    (hf : f.ensureThrows = true ∨ f.setSettingsThrows = true) :
    (showImage env now f st p).2.2 = HttpResult.serverError ∧
    (showImage env now f st p).1.currentPlayingMedia = st.currentPlayingMedia ∧
    ∀ m, Event.emitCurrentPlaying m ∉ (showImage env now f st p).2.1 := by
  unfold showImage ensureImageSource ensureSourceCall
  by_cases he : f.ensureThrows <;>
    by_cases hs : f.setSettingsThrows <;>
      simp_all [List.mem_append, sceneSwitch_no_emit, ensureOk_no_emit,
        hideSource_no_emit, showSource_no_emit]

/-- C5: after validation and the connectivity check pass, if any of the
propagating engine steps raises (ensure-source or set-input-settings for
either handler, the restart media action for the video handler), the
transition aborts: the handler reports the server-error failure,
`currentPlayingMedia` keeps its prior value, and no currentPlaying
broadcast is made; the engine effects already performed stand — nothing in
the trace undoes them (no rollback is attempted). -/
theorem failedTransition_aborts (env : Env) (now : Nat) (f : Faults)
    (st : AppState) (p : String) (hp : startsWithFn p env.mediaDir = true)
    (hc : st.obsConnected = true) :
    (f.ensureThrows = true ∨ f.setSettingsThrows = true ∨ f.restartThrows = true →
      (playVideo env now f st p).2.2 = HttpResult.serverError ∧
      (playVideo env now f st p).1.currentPlayingMedia = st.currentPlayingMedia ∧
      ∀ m, Event.emitCurrentPlaying m ∉ (playVideo env now f st p).2.1) ∧
    (f.ensureThrows = true ∨ f.setSettingsThrows = true →
      (showImage env now f st p).2.2 = HttpResult.serverError ∧
      (showImage env now f st p).1.currentPlayingMedia = st.currentPlayingMedia ∧
      ∀ m, Event.emitCurrentPlaying m ∉ (showImage env now f st p).2.1) :=
  ⟨playVideo_aborts env now f st p hp hc,
   showImage_aborts env now f st p hp hc⟩

/-- C5 witness: with the ensure-source step failing on the connected idle
state, both handlers answer the server error and the record stays the
all-null one. -/
theorem failedTransition_aborts_witness :
    (playVideo testEnv 100 ensureFault stIdleConn clipPath).2.2 =
      HttpResult.serverError ∧
    (playVideo testEnv 100 ensureFault stIdleConn clipPath).1.currentPlayingMedia =
      emptyMedia ∧
    (showImage testEnv 100 ensureFault stIdleConn picPath).2.2 =
      HttpResult.serverError := by
  have h1 := failedTransition_aborts testEnv 100 ensureFault stIdleConn clipPath
    (by decide) rfl
  have h2 := failedTransition_aborts testEnv 100 ensureFault stIdleConn picPath
    (by decide) rfl
  exact ⟨(h1.1 (Or.inl rfl)).1, (h1.1 (Or.inl rfl)).2.1, (h2.2 (Or.inl rfl)).1⟩

theorem hideSource_found (n : String) (s : SourceState) (h : s.attached = true) :
    hideSource false n s =
      ({ s with visible := false }, [Event.engineSetEnabled n false]) := by
  unfold hideSource; simp [h]

theorem showSource_found (n : String) (s : SourceState) (h : s.attached = true) :
    showSource false n s =
      ({ s with visible := true }, [Event.engineSetEnabled n true]) := by
  unfold showSource; simp [h]

theorem showSource_attached_eq (b : Bool) (n : String) (s : SourceState) :
    (showSource b n s).1.attached = s.attached := by
  unfold showSource; split_ifs <;> rfl

theorem playVideo_ok (env : Env) (now : Nat) (st : AppState) (p : String)
    (hp : startsWithFn p env.mediaDir = true) (hc : st.obsConnected = true) :
    (playVideo env now noFaults st p).2.2 = HttpResult.ok ∧
    (playVideo env now noFaults st p).1.currentPlayingMedia = videoOnAir env now p ∧
    (playVideo env now noFaults st p).1.obsConnected = true ∧
    (playVideo env now noFaults st p).1.videoSrc.attached = true := by
  unfold playVideo ensureVideoSource ensureSourceCall
  simp [hp, hc, noFaults, showSource_attached_eq, ensureOk_attached]

theorem showImage_ok (env : Env) (now : Nat) (st : AppState) (q : String)
    (hq : startsWithFn q env.mediaDir = true) (hc : st.obsConnected = true) :
    (showImage env now noFaults st q).2.2 = HttpResult.ok ∧
    (showImage env now noFaults st q).1.currentPlayingMedia = imageOnAir now q := by
  unfold showImage ensureImageSource ensureSourceCall
  simp [hq, hc, noFaults]

theorem exists_mid_split {α : Type} (a b rest : List α) (x y : α) :
    ∃ l1 l3, a ++ (b ++ ([x] ++ ([y] ++ rest))) = l1 ++ ([x, y] ++ l3) :=
  ⟨a ++ b, rest, by simp⟩

theorem showImage_hide_before_show (env : Env) (now : Nat) (st : AppState)
    (q : String) (hq : startsWithFn q env.mediaDir = true)
    (hc : st.obsConnected = true) (hv : st.videoSrc.attached = true) :
    ∃ l1 l3, (showImage env now noFaults st q).2.1 =
      l1 ++ ([Event.engineSetEnabled env.videoInput false,
              Event.engineSetEnabled env.imageInput true] ++ l3) := by
  unfold showImage ensureImageSource ensureSourceCall
  simp [hq, hc, noFaults, hideSource_found _ _ hv,
    showSource_found _ _ (ensureOk_attached env.imageInput "image_source" st.imageSrc)]
  exact exists_mid_split _ _ _ _ _

/-- C6: from any connected state, a fault-free `playVideo p` on an in-root
path succeeds and commits `{kind: video, path: p, filename: basename p,
startTime: now, duration: probed duration of p}`; a subsequent fault-free
`showImage q` succeeds and commits `{kind: image, path: q, filename:
basename q, startTime: now, duration: null}`, and in its engine trace the
video source is hidden strictly before the image source is shown. -/
theorem playThenShow_scenario (env : Env) (n1 n2 : Nat) (st : AppState)
    (p q : String) (hp : startsWithFn p env.mediaDir = true)
    (hq : startsWithFn q env.mediaDir = true) (hc : st.obsConnected = true) :
    (playVideo env n1 noFaults st p).2.2 = HttpResult.ok ∧
    (playVideo env n1 noFaults st p).1.currentPlayingMedia = videoOnAir env n1 p ∧
    (showImage env n2 noFaults (playVideo env n1 noFaults st p).1 q).2.2 =
      HttpResult.ok ∧
    (showImage env n2 noFaults
        (playVideo env n1 noFaults st p).1 q).1.currentPlayingMedia =
      imageOnAir n2 q ∧
    ∃ l1 l3,
      (showImage env n2 noFaults (playVideo env n1 noFaults st p).1 q).2.1 =
        l1 ++ ([Event.engineSetEnabled env.videoInput false,
                Event.engineSetEnabled env.imageInput true] ++ l3) := by
  obtain ⟨h1, h2, h3, h4⟩ := playVideo_ok env n1 st p hp hc
  obtain ⟨h5, h6⟩ := showImage_ok env n2 (playVideo env n1 noFaults st p).1 q hq h3
  exact ⟨h1, h2, h5, h6,
    showImage_hide_before_show env n2 (playVideo env n1 noFaults st p).1 q hq h3 h4⟩

/-- C6 witness: playing the clip then showing the picture on the connected
idle state produces exactly the claimed records (filename is the base name,
video duration the probed 42 seconds, image duration null), with the
hide-video engine call strictly before the show-image call. -/
theorem playThenShow_scenario_witness :
    (playVideo testEnv 100 noFaults stIdleConn clipPath).1.currentPlayingMedia =
      videoOnAir testEnv 100 clipPath ∧
    videoOnAir testEnv 100 clipPath =
      { type := some MediaType.video, filePath := some clipPath,
        filename := some "clip1.mp4", startTime := some 100,
        duration := some 42, durationFormatted := some "0:42" } ∧
    (showImage testEnv 200 noFaults
        (playVideo testEnv 100 noFaults stIdleConn clipPath).1
        picPath).1.currentPlayingMedia = imageOnAir 200 picPath ∧
    imageOnAir 200 picPath =
      { type := some MediaType.image, filePath := some picPath,
        filename := some "pic.png", startTime := some 200,
        duration := none, durationFormatted := none } ∧
    ∃ l1 l3,
      (showImage testEnv 200 noFaults
          (playVideo testEnv 100 noFaults stIdleConn clipPath).1 picPath).2.1 =
        l1 ++ ([Event.engineSetEnabled testEnv.videoInput false,
                Event.engineSetEnabled testEnv.imageInput true] ++ l3) := by
  have h := playThenShow_scenario testEnv 100 200 stIdleConn clipPath picPath
    (by decide) (by decide) rfl
  exact ⟨h.2.1, by decide, h.2.2.2.1, by decide, h.2.2.2.2⟩

theorem playVideo_ok_state (env : Env) (now : Nat) (f : Faults) (st : AppState)
    (p : String) (h : (playVideo env now f st p).2.2 = HttpResult.ok) :
    (playVideo env now f st p).1.currentPlayingMedia = videoOnAir env now p ∧
    (playVideo env now f st p).1.obsConnected = st.obsConnected := by
  unfold playVideo ensureVideoSource ensureSourceCall at h ⊢
  by_cases hp : startsWithFn p env.mediaDir <;>
    by_cases hc : st.obsConnected <;>
      by_cases he : f.ensureThrows <;>
        by_cases hs : f.setSettingsThrows <;>
          by_cases hr : f.restartThrows <;>
            simp_all

/-- C8: a newly connected observer immediately receives the current engine
connection status and the current record; an explicit `requestStatus`
produces exactly the same pair of messages; and whenever a `playVideo` has
just succeeded, the join-time replay carries the just-committed video
record — never a prior stale value. -/
theorem replay_consistency (st : AppState) :
    connectionReplay st = requestStatusReply st ∧
    connectionReplay st =
      [Event.emitOBSStatus st.obsConnected,
       Event.emitCurrentPlaying st.currentPlayingMedia] ∧
    (∀ env now f p, (playVideo env now f st p).2.2 = HttpResult.ok →
      connectionReplay (playVideo env now f st p).1 =
        [Event.emitOBSStatus st.obsConnected,
         Event.emitCurrentPlaying (videoOnAir env now p)]) := by
  refine ⟨rfl, rfl, fun env now f p h => ?_⟩
  obtain ⟨h1, h2⟩ := playVideo_ok_state env now f st p h
  unfold connectionReplay
  rw [h1, h2]

/-- C8 witness: the replay equals the refresh reply on a concrete on-air
state, and after the concrete successful `playVideo` the replay carries the
new video record. -/
theorem replay_consistency_witness :
    connectionReplay stOnAirConn = requestStatusReply stOnAirConn ∧
    connectionReplay (playVideo testEnv 100 noFaults stIdleConn clipPath).1 =
      [Event.emitOBSStatus true,
       Event.emitCurrentPlaying (videoOnAir testEnv 100 clipPath)] :=
  ⟨(replay_consistency stOnAirConn).1,
   (replay_consistency stIdleConn).2.2 testEnv 100 noFaults clipPath
     (playVideo_ok testEnv 100 stIdleConn clipPath (by decide) rfl).1⟩

theorem playVideo_media_cases (env : Env) (now : Nat) (f : Faults)
    (st : AppState) (p : String) :
    (playVideo env now f st p).1.currentPlayingMedia = st.currentPlayingMedia ∨
    (playVideo env now f st p).1.currentPlayingMedia = videoOnAir env now p := by
  unfold playVideo ensureVideoSource ensureSourceCall
  by_cases hp : startsWithFn p env.mediaDir <;>
    by_cases hc : st.obsConnected <;>
      by_cases he : f.ensureThrows <;>
        by_cases hs : f.setSettingsThrows <;>
          by_cases hr : f.restartThrows <;>
            simp [hp, hc, he, hs, hr]

theorem showImage_media_cases (env : Env) (now : Nat) (f : Faults)
    (st : AppState) (p : String) :
    (showImage env now f st p).1.currentPlayingMedia = st.currentPlayingMedia ∨
    (showImage env now f st p).1.currentPlayingMedia = imageOnAir now p := by
  unfold showImage ensureImageSource ensureSourceCall
  by_cases hp : startsWithFn p env.mediaDir <;>
    by_cases hc : st.obsConnected <;>
      by_cases he : f.ensureThrows <;>
        by_cases hs : f.setSettingsThrows <;>
          simp [hp, hc, he, hs]

theorem stopAll_media_cases (env : Env) (f : Faults) (st : AppState) :
    (stopAll env f st).1.currentPlayingMedia = st.currentPlayingMedia ∨
    (stopAll env f st).1.currentPlayingMedia = emptyMedia := by
  unfold stopAll
  by_cases hc : st.obsConnected <;> simp [hc]

/-- C10: every reachable state — starting from the initial all-null record
and evolving by connection changes, `playVideo`, `showImage` and `stopAll`
under arbitrary configurations, clocks, paths and engine faults —
satisfies the invariant that when the record's type is null, its filePath,
filename, startTime and duration are all null. -/
theorem onAir_invariant (st : AppState) (h : Reachable st) :
    noneIsBlank st.currentPlayingMedia := by
  induction h with
  | init vs is => exact fun _ => ⟨rfl, rfl, rfl, rfl⟩
  | connectStep st' h ih => exact ih
  | disconnectStep st' h ih => exact ih
  | playStep env now f p st' h ih =>
    rcases playVideo_media_cases env now f st' p with hm | hm
    · rw [hm]; exact ih
    · rw [hm]; intro hnone; simp [videoOnAir] at hnone
  | showStep env now f p st' h ih =>
    rcases showImage_media_cases env now f st' p with hm | hm
    · rw [hm]; exact ih
    · rw [hm]; intro hnone; simp [imageOnAir] at hnone
  | stopStep env f st' h ih =>
    rcases stopAll_media_cases env f st' with hm | hm
    · rw [hm]; exact ih
    · rw [hm]; exact fun _ => ⟨rfl, rfl, rfl, rfl⟩

/-- C10 witness: the invariant holds at the initial reachable state, whose
record is the all-null one. -/
theorem onAir_invariant_witness : noneIsBlank emptyMedia :=
  onAir_invariant
    { obsConnected := false, currentPlayingMedia := emptyMedia,
      videoSrc := srcFree, imageSrc := srcFree }
    (Reachable.init srcFree srcFree)

end ObsPlayout
